import Mathlib

/-!
# Verification of the JNI HTTP connection layer

Shallow embedding of the native JNI glue in `src/native/http_connection.c`
and `src/native/http_connection_manager.c`:

* the connection lifecycle entry points (`httpConnectionNew`,
  `httpConnectionClose`, `httpConnectionExecuteRequest`),
* the streaming callbacks that translate native HTTP-stream events into
  Java listener calls (`s_on_incoming_headers_fn`,
  `s_on_incoming_header_block_done_fn`, `s_on_incoming_body_fn`,
  `s_on_stream_complete_fn`, `s_java_headers_array_from_native`),
* the connection pool manager entry points and its pre-allocated
  buffer-pair pool (`httpConnectionManagerNew`,
  `aws_push_new_native_java_buf_pair`,
  `s_on_http_conn_manager_shutdown_complete_callback`, acquire/release).

Machine integers are modelled as `Int` with explicit `% 2^w` at the points
where the C code performs a narrowing or signed-to-unsigned conversion.
JNI object references are modelled as `Int` handles where only nullness
matters (`0` is the C `NULL`).
-/

set_option autoImplicit false

/-- The `(uint16_t)` conversion the C code applies to a Java port value
(`uint16_t port = jni_port;` in `httpConnectionNew`, and the checked cast in
`httpConnectionManagerNew`): reduction modulo `2^16`. -/
def uint16OfJava (i : Int) : Nat := (i % 65536).toNat

/-- The `(size_t)` cast applied to a `jint` (e.g. `(size_t)jni_buf_size`,
`(size_t)jni_max_conns`): conversion to a 64-bit unsigned value. -/
def sizeTOfJint (i : Int) : Nat := (i % (2 ^ 64 : Int)).toNat

/-- A response header as it crosses the JNI boundary: name bytes and value
bytes (`struct aws_http_header`). -/
structure Header where
  name : String
  value : String
deriving DecidableEq, Repr

/-! ## Events delivered to Java listeners

Each native stream callback in `http_connection.c` makes zero or more
`CallVoidMethod` calls into the Java `JniHttpCallbackHandler`.  We record
those calls as a list of `JavaEvent`s, in program order. -/

/-- A call into the Java `JniHttpCallbackHandler` listener. -/
inductive JavaEvent where
  /-- `onHeaders(respStatus, jHeaders)` -/
  | onHeaders (respStatus : Int) (headers : List (Option Header))
  /-- `onHeadersDone(hasBody)` -/
  | onHeadersDone (hasBody : Bool)
  /-- `onResponseBody(bytes)` -/
  | onResponseBody (data : List Nat)
  /-- `onResponseComplete(errorCode)` -/
  | onResponseComplete (errorCode : Int)
deriving DecidableEq, Repr

/-- Embeds `s_java_headers_array_from_native` (http_connection.c:310-329).
The C code calls `NewObjectArray(num_headers, header_class, NULL)`, which
yields an array of `num_headers` null slots.  The loop body then builds a
`jHeader` object and sets its `name`/`value` fields, but never calls
`SetObjectArrayElement`, so the constructed objects are dropped and
`myArray` is returned with every slot still null. -/
def s_java_headers_array_from_native (header_array : List Header) : List (Option Header) :=
  let myArray : List (Option Header) := List.replicate header_array.length none
  myArray

/-- Embeds `s_on_incoming_headers_fn` (http_connection.c:331-348).
`statusErr` and `respStatus` are the return value and out-parameter of the
external call `aws_http_stream_get_incoming_response_status`.  When the
status lookup fails (`err_code` non-zero) the C code first calls
`onResponseComplete(err_code)`, and then unconditionally calls
`onHeaders(resp_status, jHeaders)`. -/
def s_on_incoming_headers_fn (statusErr respStatus : Int) (header_array : List Header) :
    List JavaEvent :=
  let jHeaders := s_java_headers_array_from_native header_array
  (if statusErr ≠ 0 then [JavaEvent.onResponseComplete statusErr] else []) ++
    [JavaEvent.onHeaders respStatus jHeaders]

/-- Embeds `s_on_incoming_header_block_done_fn` (http_connection.c:350-357):
a single `onHeadersDone(has_body)` call. -/
def s_on_incoming_header_block_done_fn (has_body : Bool) : List JavaEvent :=
  [JavaEvent.onHeadersDone has_body]

/-- Embeds `s_on_incoming_body_fn` (http_connection.c:368-384): a single
`onResponseBody` call with a copy of the received bytes. -/
def s_on_incoming_body_fn (data : List Nat) : List JavaEvent :=
  [JavaEvent.onResponseBody data]

/-- Embeds `s_on_stream_complete_fn` (http_connection.c:359-366): a single
`onResponseComplete(error_code)` call. -/
def s_on_stream_complete_fn (error_code : Int) : List JavaEvent :=
  [JavaEvent.onResponseComplete error_code]

/-! ## The native stream's callback trace

The native HTTP stream (the external `aws-c-http` library, an external
collaborator per the spec) drives the callbacks registered in
`httpConnectionExecuteRequest`.  A `NativeStreamEvent` is one native
callback invocation; for the headers callback we also record what the
external `aws_http_stream_get_incoming_response_status` call returned. -/

/-- One native callback invocation on a stream. -/
inductive NativeStreamEvent where
  /-- `on_response_headers`; `statusErr`/`respStatus` are the result of
  `aws_http_stream_get_incoming_response_status` made inside the callback. -/
  | incomingHeaders (statusErr respStatus : Int) (headers : List Header)
  /-- `on_response_header_block_done` -/
  | headerBlockDone (has_body : Bool)
  /-- `on_response_body` -/
  | incomingBody (data : List Nat)
  /-- `on_complete` -/
  | streamComplete (error_code : Int)
deriving DecidableEq, Repr

/-- Java events emitted by one native callback, per the registered handlers
in `httpConnectionExecuteRequest` (http_connection.c:462-466). -/
def javaEventsOfNativeEvent : NativeStreamEvent → List JavaEvent
  | NativeStreamEvent.incomingHeaders e s hs => s_on_incoming_headers_fn e s hs
  | NativeStreamEvent.headerBlockDone b => s_on_incoming_header_block_done_fn b
  | NativeStreamEvent.incomingBody d => s_on_incoming_body_fn d
  | NativeStreamEvent.streamComplete c => s_on_stream_complete_fn c

/-- The full Java-visible event trace of a request: concatenation of the
events emitted by each native callback, in callback order. -/
def javaTraceOfNative : List NativeStreamEvent → List JavaEvent
  | [] => []
  | e :: rest => javaEventsOfNativeEvent e ++ javaTraceOfNative rest

/-- Phase of the native stream contract's per-request state machine. -/
inductive NativePhase where
  | headers
  | body
  | complete
deriving DecidableEq, Repr

/-- Modelled from the spec: the external native HTTP stream contract
(spec §4.1 / §6) — per request, zero or more headers callbacks, then an
optional header-block-done, then zero or more body callbacks, then
`on_complete` exactly once as the final callback (reachable directly from
any earlier phase on transport failure). -/
def nativeStep : NativePhase → NativeStreamEvent → Option NativePhase
  | NativePhase.headers, NativeStreamEvent.incomingHeaders _ _ _ => some NativePhase.headers
  | NativePhase.headers, NativeStreamEvent.headerBlockDone _ => some NativePhase.body
  | NativePhase.headers, NativeStreamEvent.streamComplete _ => some NativePhase.complete
  | NativePhase.body, NativeStreamEvent.incomingBody _ => some NativePhase.body
  | NativePhase.body, NativeStreamEvent.streamComplete _ => some NativePhase.complete
  | _, _ => none

/-- Run the native contract automaton over a callback trace. -/
def nativeRun : NativePhase → List NativeStreamEvent → Option NativePhase
  | p, [] => some p
  | p, e :: rest =>
    match nativeStep p e with
    | some p' => nativeRun p' rest
    | none => none

/-- A native callback trace is valid when the automaton accepts it ending in
the `complete` phase (in particular, `on_complete` fired exactly once, last). -/
def validNativeTrace (t : List NativeStreamEvent) : Bool :=
  nativeRun NativePhase.headers t == some NativePhase.complete

/-- Is this Java event the stream-complete (`onResponseComplete`) event? -/
def isResponseComplete : JavaEvent → Bool
  | JavaEvent.onResponseComplete _ => true
  | _ => false

/-- Number of stream-complete events in a Java event trace. -/
def completeCount (t : List JavaEvent) : Nat :=
  (t.filter isResponseComplete).length

/-- `true` iff no event of any kind follows a stream-complete event in the
trace (every `onResponseComplete` is the last delivered event). -/
def noEventAfterComplete : List JavaEvent → Bool
  | [] => true
  | e :: rest =>
    if isResponseComplete e then rest.isEmpty else noEventAfterComplete rest

/-! ## Connection pool manager (`http_connection_manager.c`) -/

/-- One pre-allocated buffer pair (`struct jni_byte_buf_pair`,
http_connection_manager.h:39-45): a native `aws_byte_buf` and a global
reference to a Java `DirectByteBuffer` viewing the same memory. -/
structure JniByteBufPair where
  /-- capacity of the native `aws_byte_buf` (the `body_buf_size` it was
  initialised with) -/
  nativeBufCapacity : Nat
  /-- the pair holds a JVM global reference to the Java view -/
  javaBufRefHeld : Bool
deriving DecidableEq, Repr

/-- `AWS_FATAL_ASSERT` semantics: either the computation succeeds or the
process aborts; an abort is not a recoverable (thrown) error. -/
inductive FatalOr (α : Type) where
  | fatalAssert
  | ok (a : α)
deriving DecidableEq, Repr

/-- The list produced by a successful `aws_push_new_native_java_buf_pair`:
the new pair is pushed at the front
(`aws_linked_list_push_front`, http_connection_manager.c:121). -/
def pushBufPairOk (list : List JniByteBufPair) (body_buf_size : Nat) : List JniByteBufPair :=
  { nativeBufCapacity := body_buf_size, javaBufRefHeld := true } :: list

/-- Embeds `aws_push_new_native_java_buf_pair`
(http_connection_manager.c:102-122).  The three Booleans are oracles for
the success of the three external operations the function performs:
`aws_mem_acquire` of the pair struct, `aws_byte_buf_init` of the native
buffer, and `aws_jni_direct_byte_buffer_from_byte_buf`.  Each failure hits
an `AWS_FATAL_ASSERT` (lines 106, 113, 116): a process abort, never a
returned or thrown error. -/
def aws_push_new_native_java_buf_pair (memAcquireOk bufInitOk newByteBufferOk : Bool)
    (list : List JniByteBufPair) (body_buf_size : Nat) : FatalOr (List JniByteBufPair) :=
  if memAcquireOk = false then FatalOr.fatalAssert
  else if bufInitOk = false then FatalOr.fatalAssert
  else if newByteBufferOk = false then FatalOr.fatalAssert
  else FatalOr.ok (pushBufPairOk list body_buf_size)

/-- The construction loop of `httpConnectionManagerNew`
(http_connection_manager.c:194-198) on the path where every allocation
succeeds (any allocation failure aborts the process inside
`aws_push_new_native_java_buf_pair`): `max_connections` iterations, each
pushing one fresh pair onto the idle list. -/
def allocBufPairs : Nat → Nat → List JniByteBufPair
  | 0, _ => []
  | n + 1, body_buf_size => pushBufPairOk (allocBufPairs n body_buf_size) body_buf_size

/-- The manager state (`struct jni_conn_manager`,
http_connection_manager.h:47-57) as populated by `httpConnectionManagerNew`. -/
structure JniConnManager where
  maxConnections : Nat
  bufSize : Nat
  idlePairs : List JniByteBufPair
  /-- `native_conn_manager` pointer is non-null -/
  nativeConnManagerSet : Bool
  /-- global reference to the Java `HttpConnectionPoolManager` is held -/
  javaConnManagerRefHeld : Bool
deriving DecidableEq, Repr

/-- The synchronous precondition failures `httpConnectionManagerNew` can
throw (each is an `aws_jni_throw_runtime_exception` followed by `return
NULL`, http_connection_manager.c:143-170). -/
inductive ManagerNewError where
  | bootstrapNull
  | socketOptionsNull
  | portOutOfRange
  | windowSizeNotPositive
  | maxConnsNotPositive
deriving DecidableEq, Repr

/-- Arguments of `httpConnectionManagerNew`
(http_connection_manager.c:124-135).  Pointer-typed `jlong` arguments are
handles where `0` is null; `bufSize`, `windowSize`, `port`, `maxConns` are
`jint` values. -/
structure ManagerNewArgs where
  clientBootstrap : Int
  socketOptions : Int
  tlsCtx : Int
  bufSize : Int
  windowSize : Int
  endpoint : String
  port : Int
  maxConns : Int
deriving DecidableEq, Repr

/-- Decidable equality for `Except` results, so that concrete outcomes can
be checked by `decide`. -/
instance {ε α : Type} [DecidableEq ε] [DecidableEq α] : DecidableEq (Except ε α)
  | Except.error e, Except.error f =>
    if h : e = f then isTrue (congrArg Except.error h)
    else isFalse fun hh => h (Except.error.inj hh)
  | Except.error _, Except.ok _ => isFalse fun hh => Except.noConfusion hh
  | Except.ok _, Except.error _ => isFalse fun hh => Except.noConfusion hh
  | Except.ok x, Except.ok y =>
    if h : x = y then isTrue (congrArg Except.ok h)
    else isFalse fun hh => h (Except.ok.inj hh)

/-- Result of a `httpConnectionManagerNew` call, together with counters for
the allocations it performed: `managerStateAllocs` counts `aws_mem_acquire`
of the `jni_conn_manager` struct (line 183), `bufPairAllocs` counts buffer
pairs allocated by the construction loop (lines 194-198). -/
structure ManagerNewOutcome where
  result : Except ManagerNewError JniConnManager
  managerStateAllocs : Nat
  bufPairAllocs : Nat
deriving DecidableEq, Repr

/-- Embeds `Java_software_..._HttpConnectionPoolManager_httpConnectionManagerNew`
(http_connection_manager.c:124-231).  The null/range checks (lines 143-170)
run in program order before any allocation; on success the function
allocates the manager struct, pushes `(size_t)jni_max_conns` buffer pairs
of capacity `(size_t)jni_buf_size` onto the idle list, creates the native
connection manager and returns the handle. -/
def httpConnectionManagerNew (a : ManagerNewArgs) : ManagerNewOutcome :=
  if a.clientBootstrap = 0 then
    { result := Except.error ManagerNewError.bootstrapNull
      managerStateAllocs := 0, bufPairAllocs := 0 }
  else if a.socketOptions = 0 then
    { result := Except.error ManagerNewError.socketOptionsNull
      managerStateAllocs := 0, bufPairAllocs := 0 }
  else if a.port ≤ 0 ∨ 65535 < a.port then
    { result := Except.error ManagerNewError.portOutOfRange
      managerStateAllocs := 0, bufPairAllocs := 0 }
  else if a.windowSize ≤ 0 then
    { result := Except.error ManagerNewError.windowSizeNotPositive
      managerStateAllocs := 0, bufPairAllocs := 0 }
  else if a.maxConns ≤ 0 then
    { result := Except.error ManagerNewError.maxConnsNotPositive
      managerStateAllocs := 0, bufPairAllocs := 0 }
  else
    let maxConnections := sizeTOfJint a.maxConns
    let bufSize := sizeTOfJint a.bufSize
    { result := Except.ok
        { maxConnections := maxConnections
          bufSize := bufSize
          idlePairs := allocBufPairs maxConnections bufSize
          nativeConnManagerSet := true
          javaConnManagerRefHeld := true }
      managerStateAllocs := 1
      bufPairAllocs := maxConnections }

/-- The drain loop of the shutdown-complete callback
(http_connection_manager.c:83-91): pop the idle list front-first until it
is empty, freeing each pair (delete the Java global reference, clean up the
native buffer, release the node) and counting `num_nodes`. -/
def drainLoopCount : List JniByteBufPair → Nat
  | [] => 0
  | _ :: rest => drainLoopCount rest + 1

/-- Embeds `s_on_http_conn_manager_shutdown_complete_callback`
(http_connection_manager.c:70-100), drain-and-assert portion: after the
`onShutdownComplete` Java callback, the idle list is drained and
`AWS_FATAL_ASSERT(max_connections == num_nodes)` (line 94) aborts the
process on a count mismatch; otherwise the manager state is freed.  Returns
the drained count on success. -/
def s_on_http_conn_manager_shutdown_complete_callback (m : JniConnManager) : FatalOr Nat :=
  let num_nodes := drainLoopCount m.idlePairs
  if m.maxConnections = num_nodes then FatalOr.ok num_nodes else FatalOr.fatalAssert

/-! ## Connection entry points (`http_connection.c`) -/

/-- Externally visible side effects performed by the JNI entry points:
allocations of bookkeeping state, and calls into the native library that
start asynchronous work. -/
inductive Effect where
  /-- `aws_mem_acquire` of a `http_jni_connection` struct -/
  | allocConnState
  /-- `aws_mem_acquire` of a `http_request_jni_async_callback` struct -/
  | allocRequestCallback
  /-- `aws_http_client_connect` — starts the asynchronous connect -/
  | clientConnect
  /-- `aws_http_stream_new_client_request` — submits the request -/
  | newClientRequest
  /-- `aws_http_connection_close` on the given native connection handle -/
  | nativeConnectionClose (conn : Int)
  /-- `aws_http_connection_manager_acquire_connection` -/
  | nativeAcquireConnection
  /-- `aws_http_connection_manager_release_connection` -/
  | nativeReleaseConnection
deriving DecidableEq, Repr

/-- The JNI-side connection state (`struct http_jni_connection`,
http_connection.c:74-83).  `nativeHttpConn` is the native
`aws_http_connection` pointer value (`0` until/unless the setup callback
stored one). -/
structure HttpJniConnection where
  nativeHttpConn : Int
  javaHttpConnRefHeld : Bool
  disconnectRequested : Bool
deriving DecidableEq, Repr

/-- Synchronous failures of `httpConnectionNew`
(http_connection.c:213-248): each is an `aws_jni_throw_runtime_exception`
followed by `return NULL`. -/
inductive ConnNewError where
  | bootstrapNull
  | socketOptionsNull
  | portZero
  | tlsCtxNull
  | outOfMemory
deriving DecidableEq, Repr

/-- Arguments of `httpConnectionNew` (http_connection.c:199-207).  `port`
is the `jshort` argument (a signed 16-bit value); `allocOk` is the oracle
for the `aws_mem_acquire` of the connection struct. -/
structure ConnNewArgs where
  clientBootstrap : Int
  socketOptions : Int
  tlsCtx : Int
  endpoint : String
  port : Int
deriving DecidableEq, Repr

/-- Successful result of `httpConnectionNew`: the returned JNI connection
state plus the TLS decision that was made for it. -/
structure ConnNewOk where
  useTls : Bool
  port : Nat
  conn : HttpJniConnection
deriving DecidableEq, Repr

/-- The TLS selection of `httpConnectionNew` (http_connection.c:233):
`int use_tls = !(port == 80 || port == 8080);` where `port` is the
`uint16_t` conversion of the `jshort` argument. -/
def use_tls_of_port (port : Nat) : Bool := !(port == 80 || port == 8080)

/-- Embeds `Java_software_..._HttpConnection_httpConnectionNew`
(http_connection.c:199-284).  Checks run in program order: bootstrap null,
socket-options null, `port == 0`, then — only when TLS is selected — a null
TLS context; each failure throws and returns before `aws_http_client_connect`
is reached, so the error branches carry no effects.  `allocOk` is the
oracle for the `aws_mem_acquire` of the connection struct (its failure
throws after no effect has been performed and frees nothing live).  On
success the connection struct is allocated and the asynchronous connect is
started. -/
def httpConnectionNew (allocOk : Bool) (a : ConnNewArgs) :
    Except ConnNewError ConnNewOk × List Effect :=
  if a.clientBootstrap = 0 then (Except.error ConnNewError.bootstrapNull, [])
  else if a.socketOptions = 0 then (Except.error ConnNewError.socketOptionsNull, [])
  else
    let port := uint16OfJava a.port
    if port = 0 then (Except.error ConnNewError.portZero, [])
    else
      let use_tls := use_tls_of_port port
      if use_tls = true ∧ a.tlsCtx = 0 then (Except.error ConnNewError.tlsCtxNull, [])
      else if allocOk = false then (Except.error ConnNewError.outOfMemory, [])
      else
        (Except.ok
          { useTls := use_tls
            port := port
            conn :=
              { nativeHttpConn := 0
                javaHttpConnRefHeld := true
                disconnectRequested := false } },
          [Effect.allocConnState, Effect.clientConnect])

/-- Outcome of `httpConnectionClose`.  The function has no error return:
on a null handle it proceeds to dereference the handle, which is undefined
behaviour, not a synchronous precondition failure. -/
inductive CloseOutcome where
  /-- state after the call, plus the native calls it made -/
  | ok (newState : HttpJniConnection) (effects : List Effect)
  /-- unconditional dereference of a null handle -/
  | nullDeref
deriving DecidableEq, Repr

/-- Embeds `Java_software_..._HttpConnection_httpConnectionClose`
(http_connection.c:286-294).  The handle is cast and dereferenced without
any null check; on a live handle the function sets
`disconnect_requested = true` and calls `aws_http_connection_close` on the
stored native connection. -/
def httpConnectionClose (handle : Option HttpJniConnection) : CloseOutcome :=
  match handle with
  | none => CloseOutcome.nullDeref
  | some c =>
    CloseOutcome.ok { c with disconnectRequested := true }
      [Effect.nativeConnectionClose c.nativeHttpConn]

/-- Synchronous failures of `httpConnectionExecuteRequest`
(http_connection.c:422-437). -/
inductive ExecuteRequestError where
  | invalidConnection
  | invalidHandler
  | unableToAllocateHandler
deriving DecidableEq, Repr

/-- Embeds `Java_software_..._HttpConnection_httpConnectionExecuteRequest`
(http_connection.c:411-471).  In program order: a null connection handle
throws `Invalid connection`; a null callback handler throws
`Invalid handler`; then the request bookkeeping
(`http_request_jni_async_callback`) is allocated (throwing on allocation
failure); finally the header cursors are marshalled and
`aws_http_stream_new_client_request` submits the request. -/
def httpConnectionExecuteRequest (conn : Option HttpJniConnection)
    (handlerNonNull : Bool) (allocOk : Bool) :
    Except ExecuteRequestError Unit × List Effect :=
  match conn with
  | none => (Except.error ExecuteRequestError.invalidConnection, [])
  | some _ =>
    if handlerNonNull = false then (Except.error ExecuteRequestError.invalidHandler, [])
    else if allocOk = false then (Except.error ExecuteRequestError.unableToAllocateHandler, [])
    else (Except.ok (), [Effect.allocRequestCallback, Effect.newClientRequest])

/-- Synchronous failures of the pool-manager JNI entry points
(`Connection Manager can't be null` / `Connection can't be null`). -/
inductive ManagerOpError where
  | connManagerNull
  | connectionNull
deriving DecidableEq, Repr

/-- Embeds `Java_software_..._HttpConnectionPoolManager_httpConnectionManagerAcquireConnection`
(http_connection_manager.c:284-307): a null manager handle throws
synchronously; otherwise the native acquisition is requested. -/
def httpConnectionManagerAcquireConnection (managerNonNull : Bool) :
    Except ManagerOpError Unit × List Effect :=
  if managerNonNull = false then (Except.error ManagerOpError.connManagerNull, [])
  else (Except.ok (), [Effect.nativeAcquireConnection])

/-- Embeds `Java_software_..._HttpConnectionPoolManager_httpConnectionManagerReleaseConnection`
(http_connection_manager.c:309-338): a null manager handle, then a null
connection handle, each throw synchronously; otherwise the connection is
released to the native manager. -/
def httpConnectionManagerReleaseConnection (managerNonNull connNonNull : Bool) :
    Except ManagerOpError Unit × List Effect :=
  if managerNonNull = false then (Except.error ManagerOpError.connManagerNull, [])
  else if connNonNull = false then (Except.error ManagerOpError.connectionNull, [])
  else (Except.ok (), [Effect.nativeReleaseConnection])

/-! ## Lock discipline of the pool manager

For claim C6 we model each pool-manager routine as its sequence of atomic
steps, recording where `rw_lock` is taken/released and where a
caller-registered Java listener method is invoked.  Steps that neither
touch the lock nor call into caller code are recorded as `internal`. -/

/-- One atomic step of a pool-manager routine. -/
inductive MgrStep where
  /-- `aws_mutex_lock(&rw_lock)` -/
  | lockMutex
  /-- `aws_mutex_unlock(&rw_lock)` -/
  | unlockMutex
  /-- `CallVoidMethod` into a caller-registered listener method -/
  | callerCallback (method : String)
  /-- any other operation -/
  | internal (what : String)
deriving DecidableEq, Repr

/-- Steps of `s_on_http_conn_manager_shutdown_complete_callback`
(http_connection_manager.c:70-100): the callback locks `rw_lock` (line 73),
invokes the caller's `onShutdownComplete` (line 80), drains the buffer-pair
list, frees the manager state and cleans the mutex up — it never unlocks. -/
def shutdownCompleteSteps : List MgrStep :=
  [ MgrStep.lockMutex
  , MgrStep.internal "aws_jni_get_thread_env"
  , MgrStep.internal "AWS_LOGF_DEBUG"
  , MgrStep.callerCallback "onShutdownComplete"
  , MgrStep.internal "drain idle_java_native_buf_pairs"
  , MgrStep.internal "AWS_FATAL_ASSERT max_connections == num_nodes"
  , MgrStep.internal "DeleteGlobalRef java_conn_manager"
  , MgrStep.internal "aws_mem_release user_data"
  , MgrStep.internal "aws_mutex_clean_up" ]

/-- Steps of `s_on_http_conn_acquisition_callback`
(http_connection_manager.c:259-282): invokes the caller's
`onConnectionAcquired` without ever touching the lock. -/
def acquisitionCallbackSteps : List MgrStep :=
  [ MgrStep.internal "aws_jni_get_thread_env"
  , MgrStep.internal "AWS_LOGF_DEBUG"
  , MgrStep.callerCallback "onConnectionAcquired" ]

/-- Steps of `httpConnectionManagerNew` on the success path
(http_connection_manager.c:183-230): the manager state is built and the
buffer pairs allocated under the lock (lines 185-223); no caller listener
is invoked. -/
def managerNewSteps : List MgrStep :=
  [ MgrStep.internal "aws_mem_acquire jni_conn_manager"
  , MgrStep.internal "aws_mutex_init"
  , MgrStep.lockMutex
  , MgrStep.internal "NewGlobalRef conn_manager_jobject"
  , MgrStep.internal "allocate buffer pairs"
  , MgrStep.internal "aws_http_connection_manager_new"
  , MgrStep.unlockMutex ]

/-- Steps of `httpConnectionManagerRelease`
(http_connection_manager.c:233-257): under the lock, the native manager
reference is nulled and released; no caller listener is invoked. -/
def managerReleaseSteps : List MgrStep :=
  [ MgrStep.internal "AWS_LOGF_DEBUG"
  , MgrStep.lockMutex
  , MgrStep.internal "null out native_conn_manager"
  , MgrStep.internal "aws_http_connection_manager_release"
  , MgrStep.unlockMutex ]

/-- Steps of `httpConnectionManagerAcquireConnection`
(http_connection_manager.c:284-307): forwards to the native manager; no
lock, no caller listener. -/
def acquireConnectionSteps : List MgrStep :=
  [ MgrStep.internal "AWS_LOGF_DEBUG"
  , MgrStep.internal "aws_http_connection_manager_acquire_connection" ]

/-- Steps of `httpConnectionManagerReleaseConnection`
(http_connection_manager.c:309-338): forwards to the native manager; no
lock, no caller listener. -/
def releaseConnectionSteps : List MgrStep :=
  [ MgrStep.internal "AWS_LOGF_DEBUG"
  , MgrStep.internal "aws_http_connection_manager_release_connection" ]

/-- Every pool-manager routine of `http_connection_manager.c` (entry points
and native callbacks), as step sequences. -/
def poolManagerRoutines : List (List MgrStep) :=
  [ managerNewSteps
  , managerReleaseSteps
  , acquireConnectionSteps
  , releaseConnectionSteps
  , acquisitionCallbackSteps
  , shutdownCompleteSteps ]

/-- Is this step an invocation of a caller-registered listener? -/
def isCallerCallback : MgrStep → Bool
  | MgrStep.callerCallback _ => true
  | _ => false

/-- Auxiliary walk: given whether the routine's thread currently holds the
lock, is some caller callback executed while the lock is held? -/
def anyCallbackUnderLockFrom : Bool → List MgrStep → Bool
  | _, [] => false
  | held, s :: rest =>
    (isCallerCallback s && held) ||
      anyCallbackUnderLockFrom
        (match s with
         | MgrStep.lockMutex => true
         | MgrStep.unlockMutex => false
         | _ => held) rest

/-- A routine invokes a caller callback while holding the manager's lock. -/
def anyCallbackUnderLock (steps : List MgrStep) : Bool :=
  anyCallbackUnderLockFrom false steps

/-! ## Helper lemmas -/

/-- The construction loop produces exactly as many buffer pairs as it runs
iterations. -/
theorem allocBufPairs_length (n s : Nat) : (allocBufPairs n s).length = n := by
  induction n with
  | zero => rfl
  | succ k ih => simp [allocBufPairs, pushBufPairOk, ih]

/-- Every pair the construction loop produces has the configured capacity. -/
theorem allocBufPairs_capacity (n s : Nat) :
    ∀ p ∈ allocBufPairs n s, p.nativeBufCapacity = s := by
  induction n with
  | zero => intro p hp; cases hp
  | succ k ih =>
    intro p hp
    simp only [allocBufPairs, pushBufPairOk, List.mem_cons] at hp
    rcases hp with rfl | hp
    · rfl
    · exact ih p hp

/-- The drain loop counts exactly the length of the idle list. -/
theorem drainLoopCount_eq_length (l : List JniByteBufPair) :
    drainLoopCount l = l.length := by
  induction l with
  | nil => rfl
  | cons p rest ih => simp [drainLoopCount, ih]

/-! ## Claims -/

/-- A native callback trace exhibiting claim C1's failure: the stream's
headers callback arrives while `aws_http_stream_get_incoming_response_status`
fails (returns error code 1), followed by the stream's `on_complete`. -/
def c1FailingNativeTrace : List NativeStreamEvent :=
  [NativeStreamEvent.incomingHeaders 1 0 [], NativeStreamEvent.streamComplete 0]

/-- C1: the claim says the stream-complete event (`onResponseComplete`) is
delivered exactly once per request and terminates the stream, with no
headers/headers-done/body event after it.  The code violates this: on a
valid native trace whose headers callback sees a failing status lookup,
`s_on_incoming_headers_fn` delivers `onResponseComplete(err)` and then
still delivers `onHeaders` after it, and the stream's own `on_complete`
later delivers a second `onResponseComplete` — two stream-complete events,
with a headers event delivered after the first one. -/
theorem stream_complete_duplicated_and_not_terminal :
    validNativeTrace c1FailingNativeTrace = true ∧
    javaTraceOfNative c1FailingNativeTrace =
      [JavaEvent.onResponseComplete 1, JavaEvent.onHeaders 0 [],
        JavaEvent.onResponseComplete 0] ∧
    completeCount (javaTraceOfNative c1FailingNativeTrace) = 2 ∧
    noEventAfterComplete (javaTraceOfNative c1FailingNativeTrace) = false := by
  decide

/-- C2: for every pool the create call actually returns, construction
allocated exactly `max_connections` buffer pairs and left them all on the
idle list; the shutdown-complete handler drains exactly that many and its
`AWS_FATAL_ASSERT` passes, returning the drained count; and any manager
state whose drained count would differ from `max_connections` hits the
fatal assertion (a process abort, not a recoverable error). -/
theorem manager_buffer_pool_drain_invariant :
    (∀ (a : ManagerNewArgs) (m : JniConnManager),
        (httpConnectionManagerNew a).result = Except.ok m →
        (httpConnectionManagerNew a).bufPairAllocs = sizeTOfJint a.maxConns ∧
        m.idlePairs.length = sizeTOfJint a.maxConns ∧
        s_on_http_conn_manager_shutdown_complete_callback m =
          FatalOr.ok (sizeTOfJint a.maxConns)) ∧
    (∀ m : JniConnManager,
        drainLoopCount m.idlePairs ≠ m.maxConnections →
        s_on_http_conn_manager_shutdown_complete_callback m = FatalOr.fatalAssert) := by
  constructor
  · intro a m hok
    unfold httpConnectionManagerNew at hok ⊢
    split_ifs at hok ⊢
    all_goals simp_all
    obtain rfl := hok
    refine ⟨allocBufPairs_length _ _, ?_⟩
    unfold s_on_http_conn_manager_shutdown_complete_callback
    rw [drainLoopCount_eq_length, allocBufPairs_length]
    simp
  · intro m hne
    unfold s_on_http_conn_manager_shutdown_complete_callback
    rw [if_neg fun h => hne h.symm]

/-- Witness for C2 at a concrete pool: `max_connections = 8`,
`buf_size = 16384`, valid arguments throughout. -/
theorem manager_buffer_pool_drain_invariant_witness :
    (httpConnectionManagerNew
        { clientBootstrap := 1, socketOptions := 1, tlsCtx := 0, bufSize := 16384,
          windowSize := 16384, endpoint := "localhost", port := 80, maxConns := 8 }).result =
      Except.ok
        { maxConnections := 8, bufSize := 16384, idlePairs := allocBufPairs 8 16384,
          nativeConnManagerSet := true, javaConnManagerRefHeld := true } ∧
    (allocBufPairs 8 16384).length = 8 ∧
    s_on_http_conn_manager_shutdown_complete_callback
        { maxConnections := 8, bufSize := 16384, idlePairs := allocBufPairs 8 16384,
          nativeConnManagerSet := true, javaConnManagerRefHeld := true } =
      FatalOr.ok 8 := by
  refine ⟨by decide, ?_⟩
  have h := manager_buffer_pool_drain_invariant.1
    { clientBootstrap := 1, socketOptions := 1, tlsCtx := 0, bufSize := 16384,
      windowSize := 16384, endpoint := "localhost", port := 80, maxConns := 8 }
    { maxConnections := 8, bufSize := 16384, idlePairs := allocBufPairs 8 16384,
      nativeConnManagerSet := true, javaConnManagerRefHeld := true }
    (by decide)
  exact ⟨h.2.1, h.2.2⟩

/-- The header pair the spec's round-trip test sends and expects back. -/
def xTestHeader : Header := { name := "X-Test", value := "1" }

/-- C3: the claim says the headers-received event carries an array
containing the received `("X-Test","1")` pair.  The code violates this:
`s_java_headers_array_from_native` allocates the object array but never
stores the constructed header objects into it (`SetObjectArrayElement` is
never called), so for the native header block `[("X-Test","1")]` the
delivered array is `[null]` and contains no such entry. -/
theorem headers_array_drops_received_pairs :
    s_java_headers_array_from_native [xTestHeader] = [none] ∧
    some xTestHeader ∉ s_java_headers_array_from_native [xTestHeader] ∧
    s_on_incoming_headers_fn 0 200 [xTestHeader] =
      [JavaEvent.onHeaders 200 [none]] := by
  decide

/-- C4: every pool-create call with a null bootstrap, null socket options,
out-of-range port, non-positive window size, or non-positive max connection
count fails synchronously with an explicit error, returns no pool handle,
and allocates neither the manager state nor any buffer pair. -/
theorem managerNew_invalid_args_fail_without_allocation :
    ∀ a : ManagerNewArgs,
      a.clientBootstrap = 0 ∨ a.socketOptions = 0 ∨ a.port ≤ 0 ∨ 65535 < a.port ∨
          a.windowSize ≤ 0 ∨ a.maxConns ≤ 0 →
      ∃ e : ManagerNewError,
        httpConnectionManagerNew a =
          { result := Except.error e, managerStateAllocs := 0, bufPairAllocs := 0 } := by
  intro a h
  unfold httpConnectionManagerNew
  split_ifs with h1 h2 h3 h4 h5
  · exact ⟨ManagerNewError.bootstrapNull, rfl⟩
  · exact ⟨ManagerNewError.socketOptionsNull, rfl⟩
  · exact ⟨ManagerNewError.portOutOfRange, rfl⟩
  · exact ⟨ManagerNewError.windowSizeNotPositive, rfl⟩
  · exact ⟨ManagerNewError.maxConnsNotPositive, rfl⟩
  · exfalso
    rcases h with h | h | h | h | h | h
    · exact h1 h
    · exact h2 h
    · exact h3 (Or.inl h)
    · exact h3 (Or.inr h)
    · exact h4 h
    · exact h5 h

/-- Witness for C4 at the spec's own test case: `port = 0` and
`max_connections = 0` (all other arguments valid). -/
theorem managerNew_invalid_args_fail_without_allocation_witness :
    (({ clientBootstrap := 1, socketOptions := 1, tlsCtx := 0, bufSize := 16384,
        windowSize := 16384, endpoint := "localhost", port := 0,
        maxConns := 0 } : ManagerNewArgs).port ≤ 0) ∧
    ∃ e : ManagerNewError,
      httpConnectionManagerNew
          { clientBootstrap := 1, socketOptions := 1, tlsCtx := 0, bufSize := 16384,
            windowSize := 16384, endpoint := "localhost", port := 0, maxConns := 0 } =
        { result := Except.error e, managerStateAllocs := 0, bufPairAllocs := 0 } :=
  ⟨by decide,
    managerNew_invalid_args_fail_without_allocation _
      (Or.inr (Or.inr (Or.inl (by decide))))⟩

/-- C5: the connect entry point selects TLS exactly when the (16-bit) port
is neither 80 nor 8080; every successful call's TLS decision agrees with
that rule; and whenever TLS is selected but the supplied TLS context is
null, the call fails synchronously with an explicit error and performs no
effect — in particular no asynchronous connect is started and no handle is
returned. -/
theorem connectionNew_tls_selection_and_null_ctx_failure :
    (∀ p : Nat, use_tls_of_port p = true ↔ (p ≠ 80 ∧ p ≠ 8080)) ∧
    (∀ (allocOk : Bool) (a : ConnNewArgs) (r : ConnNewOk) (effs : List Effect),
        httpConnectionNew allocOk a = (Except.ok r, effs) →
        r.useTls = use_tls_of_port (uint16OfJava a.port) ∧
        r.port = uint16OfJava a.port) ∧
    (∀ (allocOk : Bool) (a : ConnNewArgs),
        a.clientBootstrap ≠ 0 → a.socketOptions ≠ 0 → uint16OfJava a.port ≠ 0 →
        use_tls_of_port (uint16OfJava a.port) = true → a.tlsCtx = 0 →
        httpConnectionNew allocOk a = (Except.error ConnNewError.tlsCtxNull, [])) := by
  refine ⟨?_, ?_, ?_⟩
  · intro p
    simp [use_tls_of_port, not_or]
  · intro allocOk a r effs h
    unfold httpConnectionNew at h
    dsimp only at h
    split_ifs at h
    all_goals
      rw [Prod.mk.injEq] at h
      try exact absurd h.1 (fun hh => Except.noConfusion hh)
    obtain ⟨hok, -⟩ := h
    have hr := (Except.ok.inj hok).symm
    subst hr
    exact ⟨rfl, rfl⟩
  · intro allocOk a hb hs hp htls hctx
    unfold httpConnectionNew
    rw [if_neg hb, if_neg hs, if_neg hp, if_pos ⟨htls, hctx⟩]

/-- Witness for C5: port 443 (TLS selected) with a null TLS context fails
with the explicit TLS-context error and starts nothing. -/
theorem connectionNew_tls_selection_witness :
    use_tls_of_port (uint16OfJava 443) = true ∧
    httpConnectionNew true
        { clientBootstrap := 1, socketOptions := 1, tlsCtx := 0,
          endpoint := "example.com", port := 443 } =
      (Except.error ConnNewError.tlsCtxNull, []) :=
  ⟨by decide,
    connectionNew_tls_selection_and_null_ctx_failure.2.2 true
      { clientBootstrap := 1, socketOptions := 1, tlsCtx := 0,
        endpoint := "example.com", port := 443 }
      (by decide) (by decide) (by decide) (by decide) rfl⟩

/-- C6 counterexample: the claim says no pool routine invokes a
caller-registered listener while holding the manager's lock.  The
shutdown-complete handler is a pool callback that locks `rw_lock`
(http_connection_manager.c:73) and then invokes the caller's
`onShutdownComplete` (line 80) with the lock still held, so the claim is
false of the code. -/
theorem shutdown_callback_invoked_under_lock :
    shutdownCompleteSteps ∈ poolManagerRoutines ∧
    anyCallbackUnderLock shutdownCompleteSteps = true ∧
    ¬ (∀ steps ∈ poolManagerRoutines, anyCallbackUnderLock steps = false) := by
  decide

/-- C6 amended: every pool-manager routine other than the shutdown-complete
handler invokes caller-registered listeners only without the manager's
lock; the shutdown-complete handler alone calls `onShutdownComplete` while
holding the lock. -/
theorem pool_callbacks_lock_free_except_shutdown :
    ∀ steps ∈ poolManagerRoutines, steps ≠ shutdownCompleteSteps →
      anyCallbackUnderLock steps = false := by
  decide

/-- Witness for the amended C6: the acquisition callback — the routine that
delivers `onConnectionAcquired` to the caller — runs without the lock. -/
theorem pool_callbacks_lock_free_except_shutdown_witness :
    acquisitionCallbackSteps ∈ poolManagerRoutines ∧
    acquisitionCallbackSteps ≠ shutdownCompleteSteps ∧
    anyCallbackUnderLock acquisitionCallbackSteps = false :=
  ⟨by decide, by decide,
    pool_callbacks_lock_free_except_shutdown acquisitionCallbackSteps
      (by decide) (by decide)⟩

/-- C7: an execute-request call with a null connection handle or a null
streaming listener fails synchronously with an explicit error and performs
no partial work — no request bookkeeping is allocated and no request is
submitted to the underlying connection (the effect list is empty). -/
theorem executeRequest_null_args_no_partial_work :
    ∀ (conn : Option HttpJniConnection) (handlerNonNull allocOk : Bool),
      conn = none ∨ handlerNonNull = false →
      ∃ e : ExecuteRequestError,
        httpConnectionExecuteRequest conn handlerNonNull allocOk =
          (Except.error e, []) := by
  intro conn handlerNonNull allocOk h
  match conn with
  | none => exact ⟨ExecuteRequestError.invalidConnection, rfl⟩
  | some c =>
    have hh : handlerNonNull = false := by
      rcases h with h | h
      · exact absurd h (by simp)
      · exact h
    exact ⟨ExecuteRequestError.invalidHandler, by
      unfold httpConnectionExecuteRequest
      rw [if_pos hh]⟩

/-- Witness for C7: a null connection handle (with a non-null handler and a
healthy allocator) fails with an explicit error and an empty effect list. -/
theorem executeRequest_null_args_no_partial_work_witness :
    ((none : Option HttpJniConnection) = none ∨ true = false) ∧
    ∃ e : ExecuteRequestError,
      httpConnectionExecuteRequest none true true = (Except.error e, []) :=
  ⟨Or.inl rfl, executeRequest_null_args_no_partial_work none true true (Or.inl rfl)⟩

/-- C8: close is idempotent on the connection handle's state — closing a
live handle sets `disconnect_requested` and requests shutdown of the stored
native connection, and a second close leaves the handle in the same state
and requests shutdown of the same underlying native connection. -/
theorem connectionClose_idempotent :
    ∀ c : HttpJniConnection,
      httpConnectionClose (some c) =
        CloseOutcome.ok { c with disconnectRequested := true }
          [Effect.nativeConnectionClose c.nativeHttpConn] ∧
      httpConnectionClose (some { c with disconnectRequested := true }) =
        CloseOutcome.ok { c with disconnectRequested := true }
          [Effect.nativeConnectionClose c.nativeHttpConn] ∧
      ({ c with disconnectRequested := true } : HttpJniConnection).disconnectRequested
        = true :=
  fun _ => ⟨rfl, rfl, rfl⟩

/-- C9: pool creation performs no validation of the configured buffer size
— with all other arguments valid, any `buf_size ≤ 0` still yields a pool
whose stored buffer size and per-pair buffer capacity are the `(size_t)`
cast of the negative/zero value — and inside the pair allocator every
allocation failure is an `AWS_FATAL_ASSERT` (process abort), never a
recoverable error. -/
theorem bufSize_unvalidated_and_alloc_failure_fatal :
    (∀ a : ManagerNewArgs,
        a.clientBootstrap ≠ 0 → a.socketOptions ≠ 0 →
        0 < a.port → a.port ≤ 65535 → 0 < a.windowSize → 0 < a.maxConns →
        a.bufSize ≤ 0 →
        ∃ m : JniConnManager,
          (httpConnectionManagerNew a).result = Except.ok m ∧
          m.bufSize = sizeTOfJint a.bufSize ∧
          ∀ p ∈ m.idlePairs, p.nativeBufCapacity = sizeTOfJint a.bufSize) ∧
    (∀ (memAcquireOk bufInitOk newByteBufferOk : Bool)
        (l : List JniByteBufPair) (s : Nat),
        memAcquireOk = false ∨ bufInitOk = false ∨ newByteBufferOk = false →
        aws_push_new_native_java_buf_pair memAcquireOk bufInitOk newByteBufferOk l s =
          FatalOr.fatalAssert) := by
  constructor
  · intro a hb hs hp1 hp2 hw hm _hbuf
    unfold httpConnectionManagerNew
    rw [if_neg hb, if_neg hs, if_neg (by omega : ¬(a.port ≤ 0 ∨ 65535 < a.port)),
      if_neg (by omega : ¬a.windowSize ≤ 0), if_neg (by omega : ¬a.maxConns ≤ 0)]
    exact ⟨_, rfl, rfl, allocBufPairs_capacity _ _⟩
  · intro memAcquireOk bufInitOk newByteBufferOk l s h
    cases memAcquireOk <;> cases bufInitOk <;> cases newByteBufferOk <;>
      first
        | rfl
        | rcases h with h | h | h <;> cases h

/-- Witness for C9: `buf_size = -1` with all other arguments valid still
creates the pool, and a failed pair allocation is a fatal assert. -/
theorem bufSize_unvalidated_and_alloc_failure_fatal_witness :
    ((-1 : Int) ≤ 0) ∧
    (∃ m : JniConnManager,
        (httpConnectionManagerNew
            { clientBootstrap := 1, socketOptions := 1, tlsCtx := 0, bufSize := -1,
              windowSize := 16384, endpoint := "localhost", port := 80,
              maxConns := 1 }).result = Except.ok m ∧
        m.bufSize = sizeTOfJint (-1) ∧
        ∀ p ∈ m.idlePairs, p.nativeBufCapacity = sizeTOfJint (-1)) ∧
    aws_push_new_native_java_buf_pair false true true [] 0 = FatalOr.fatalAssert :=
  ⟨by decide,
    bufSize_unvalidated_and_alloc_failure_fatal.1
      { clientBootstrap := 1, socketOptions := 1, tlsCtx := 0, bufSize := -1,
        windowSize := 16384, endpoint := "localhost", port := 80, maxConns := 1 }
      (by decide) (by decide) (by decide) (by decide) (by decide) (by decide)
      (by decide),
    bufSize_unvalidated_and_alloc_failure_fatal.2 false true true [] 0 (Or.inl rfl)⟩

/-- C10: close performs no null check on its connection-handle argument —
on a null handle it dereferences the handle unconditionally (undefined
behaviour, not a synchronous precondition error), whereas execute-request
and the pool-manager acquire/release-connection entry points each reject a
null handle synchronously with an explicit error before doing anything
else. -/
theorem close_has_no_null_check_unlike_other_entry_points :
    httpConnectionClose none = CloseOutcome.nullDeref ∧
    (∀ handlerNonNull allocOk : Bool,
        httpConnectionExecuteRequest none handlerNonNull allocOk =
          (Except.error ExecuteRequestError.invalidConnection, [])) ∧
    httpConnectionManagerAcquireConnection false =
      (Except.error ManagerOpError.connManagerNull, []) ∧
    (∀ connNonNull : Bool,
        httpConnectionManagerReleaseConnection false connNonNull =
          (Except.error ManagerOpError.connManagerNull, [])) ∧
    httpConnectionManagerReleaseConnection true false =
      (Except.error ManagerOpError.connectionNull, []) :=
  ⟨rfl, fun _ _ => rfl, rfl, fun _ => rfl, rfl⟩
